import Mathlib

/-!
Verification of the Alzheimer's stage predictor web app (`app.py`).

The program is a single script: it loads a pre-trained classifier, lets the
user upload an MRI image, preprocesses the image to a `(1,128,128,3)` tensor,
runs the classifier to obtain a probability vector over 4 classes, and renders
a static block of educational text keyed by the predicted class.

The shallow embedding below models:
- the Python dicts `labels` and `stage_info` as association lists
  (lookup returning `Option` models Python `KeyError` / `in` / `.get`);
- probability values as rationals (`ℚ`), pixels as natural-number triples;
- the numpy routines `argmax` / `max` by their documented semantics
  (first-occurring maximum);
- external library calls (PIL image decoding and resizing, the opaque
  classifier artifact) from the specification's contracts, each marked
  `Modelled from the spec:` in its doc comment;
- the sequence of display calls as a list of `RenderItem`s whose payloads are
  the data displayed (markdown decoration of the format strings is omitted;
  one item per displayed section or line, bullet lists carried as the list
  they iterate over).
-/

/-- A support-resource link: the `{"label": ..., "url": ...}` dicts in
`stage_info`'s `support_resources` entries. -/
structure Resource where
  label : String
  url : String
deriving DecidableEq

/-- A value stored in a `stage_info` record: a string, a list of strings, or a
list of support-resource links. -/
inductive FieldVal where
  | str : String → FieldVal
  | strList : List String → FieldVal
  | resList : List Resource → FieldVal
deriving DecidableEq

/-- One record of the `stage_info` dict, as an association list from field
name to value (mirroring a Python dict, so key-presence checks like
`"progression" in info` are meaningful). -/
abbrev StageRecord := List (String × FieldVal)

/-- The label map `labels` (app.py lines 18–23): class index to class name.
Python raises `KeyError` for a missing key; here the lookup returns `none`. -/
def labels : Nat → Option String
  | 0 => some "mild_dementia"
  | 1 => some "moderate_dementia"
  | 2 => some "non_demented"
  | 3 => some "very_mild_dementia"
  | _ => none

/-- The `'non_demented'` record of `stage_info` (app.py lines 26–54). -/
def nonDementedInfo : StageRecord := [
  ("stage", .str "Non-demented (No apparent impairment)"),
  ("description", .str "No signs of cognitive impairment or memory loss. The individual is able to function independently, with normal memory and reasoning."),
  ("symptoms", .strList []),
  ("progression", .str "Cognitive abilities remain stable. Regular monitoring is advised since risk factors can accumulate over time."),
  ("risk_factors", .strList [
    "Advanced age (65+)",
    "Family history of dementia",
    "Sedentary lifestyle",
    "Poor cardiovascular health",
    "Diabetes",
    "High blood pressure"]),
  ("care_tips", .strList [
    "Continue a healthy lifestyle with regular mental, physical, and social activities.",
    "Routine medical evaluations to detect any early changes.",
    "Maintain a balanced diet (Mediterranean-style diet recommended).",
    "Regular exercise (30 minutes, 5 days a week).",
    "Stay socially engaged and mentally stimulated."]),
  ("legal_considerations", .str "No immediate legal needs, but early estate planning and creation of advanced directives are always beneficial for future preparedness."),
  ("support_resources", .resList [
    ⟨"Alzheimer's Association Main Site", "https://www.alz.org"⟩,
    ⟨"National Institute on Aging - Alzheimer's Info", "https://www.nia.nih.gov/health/alzheimers-and-dementia"⟩,
    ⟨"Alzheimer's Prevention Tips", "https://www.alzheimers.gov/life-with-dementia"⟩]),
  ("additional_info", .str "Prevention strategies include cognitive training, social engagement, and managing cardiovascular risk factors."),
  ("reference", .str "https://www.alz.org/alzheimers-dementia/stages")]

/-- The `'very_mild_dementia'` record of `stage_info` (app.py lines 55–91). -/
def veryMildDementiaInfo : StageRecord := [
  ("stage", .str "Very Mild Dementia (Early Stage)"),
  ("description", .str "Minor memory lapses and cognitive changes that may not be immediately noticeable to others. Individuals can still function independently in most daily activities."),
  ("symptoms", .strList [
    "Occasional memory lapses",
    "Mild word-finding difficulty",
    "Slight trouble with complex tasks",
    "Forgetting recent conversations or events",
    "Difficulty remembering names of new people",
    "Trouble with planning and organization"]),
  ("progression", .str "Progression may be slow or remain stable for years. Early intervention and lifestyle modifications can help slow progression. Regular cognitive assessments recommended every 6-12 months."),
  ("risk_factors", .strList [
    "Mild cognitive impairment (MCI) history",
    "Previous brain injury or trauma",
    "Genetic predisposition (APOE gene variants)",
    "Chronic stress and depression",
    "Sleep disorders"]),
  ("care_tips", .strList [
    "Encourage regular mental stimulation like puzzles, reading, or learning new skills.",
    "Maintain consistent daily routines and adequate sleep (7-9 hours).",
    "Monitor for changes and keep a symptoms diary.",
    "Use memory aids like calendars, notes, and smartphone reminders.",
    "Stay physically active with regular exercise.",
    "Maintain social connections and activities."]),
  ("legal_considerations", .str "Ideal time to start legal and financial planning, including power of attorney, advance care directives, and healthcare proxies while the individual can still participate fully in decisions."),
  ("support_resources", .resList [
    ⟨"Alzheimer's Association Stages Guide", "https://www.alz.org/alzheimers-dementia/stages"⟩,
    ⟨"Early Stage Caregiving Resources", "https://www.alz.org/help-support/caregiving/stages-behaviors/early-stage"⟩,
    ⟨"National Institute on Aging Resources", "https://www.nia.nih.gov/health/alzheimers-disease-fact-sheet"⟩,
    ⟨"24/7 Alzheimer's Helpline", "https://www.alz.org/help-support/resources"⟩]),
  ("additional_info", .str "Early diagnosis allows for better planning and access to treatments that may help slow progression. Consider joining clinical trials for potential new treatments."),
  ("reference", .str "https://www.mayoclinic.org/diseases-conditions/alzheimers-disease/in-depth/alzheimers-stages/art-20048448")]

/-- The `'mild_dementia'` record of `stage_info` (app.py lines 92–131). -/
def mildDementiaInfo : StageRecord := [
  ("stage", .str "Mild Dementia (Middle Stage - Early)"),
  ("description", .str "Noticeable memory loss and cognitive changes that interfere with daily life. Family and friends will likely notice changes, and professional intervention becomes important."),
  ("symptoms", .strList [
    "Significant short-term memory loss",
    "Frequently misplacing items",
    "Trouble with planning, organizing, and decision-making",
    "Getting lost in familiar places",
    "Difficulty managing finances and medications",
    "Problems with language and communication",
    "Changes in mood and personality",
    "Withdrawal from social activities"]),
  ("progression", .str "Symptoms become more apparent and may increase over 2-4 years. Most individuals can still live independently with some support and supervision. This stage often lasts the longest."),
  ("risk_factors", .strList [
    "Progressive neurodegeneration",
    "Uncontrolled diabetes",
    "Untreated hypertension",
    "Social isolation",
    "Lack of mental stimulation"]),
  ("care_tips", .strList [
    "Establish and maintain consistent daily routines.",
    "Use calendars, notes, pill organizers, and digital reminders.",
    "Provide gentle supervision for complex tasks like driving, cooking, and managing finances.",
    "Encourage independence in familiar activities while ensuring safety.",
    "Create a safe, clutter-free home environment.",
    "Consider adult day programs for socialization and activities.",
    "Monitor nutrition and ensure regular meals."]),
  ("legal_considerations", .str "Critical time to complete all legal and financial planning. Consider discussing driving safety, financial management, and future care preferences. May need to involve financial advisor or elder law attorney."),
  ("support_resources", .resList [
    ⟨"Alzheimer's Association Caregiving Center", "https://www.alz.org/help-support/caregiving"⟩,
    ⟨"Mayo Clinic Alzheimer's Stages", "https://www.mayoclinic.org/diseases-conditions/alzheimers-disease/in-depth/alzheimers-stages/art-20048448"⟩,
    ⟨"Caregiver Support Groups", "https://www.alz.org/help-support/resources"⟩,
    ⟨"Daily Care Planning Tools", "https://www.alzheimers.gov/life-with-dementia/resources-caregivers"⟩]),
  ("additional_info", .str "This is often when families first seek medical help. Treatment with medications like cholinesterase inhibitors may help with symptoms. Consider joining support groups for both patient and family."),
  ("reference", .str "https://www.alz.org/alzheimers-dementia/stages")]

/-- The `'moderate_dementia'` record of `stage_info` (app.py lines 132–173). -/
def moderateDementiaInfo : StageRecord := [
  ("stage", .str "Moderate Dementia (Middle Stage - Advanced)"),
  ("description", .str "Significant cognitive decline with increased confusion and behavioral changes. Requires substantial daily assistance and supervision for safety and basic care."),
  ("symptoms", .strList [
    "Severe memory loss and confusion",
    "Difficulty recognizing family members and friends",
    "Problems with language and communication",
    "Wandering and getting lost",
    "Poor judgment and decision-making",
    "Sleep disturbances and day/night confusion",
    "Behavioral changes including agitation, suspicion, or hallucinations",
    "Difficulty with personal care (bathing, dressing, toileting)",
    "Problems with eating and swallowing"]),
  ("progression", .str "Symptoms become severe and can change rapidly. This stage typically lasts 2-10 years. Round-the-clock supervision becomes necessary for safety and care."),
  ("risk_factors", .strList [
    "Natural disease progression",
    "Infections (UTIs, pneumonia)",
    "Medication side effects",
    "Environmental changes or stress",
    "Lack of structured care"]),
  ("care_tips", .strList [
    "Ensure 24/7 supervision and safety measures at home.",
    "Supervise all medications, meals, and personal hygiene.",
    "Maintain consistent daily routines and familiar environments.",
    "Use simple, clear communication and remain patient.",
    "Manage wandering with alarms, locks, or GPS devices.",
    "Address sleep issues with proper sleep hygiene.",
    "Consider professional in-home care or adult day programs.",
    "Monitor for signs of pain, infection, or other medical issues."]),
  ("legal_considerations", .str "Caregivers typically need to act as legal proxies for healthcare and financial decisions. Ensure all legal documents are in place and activated as needed."),
  ("support_resources", .resList [
    ⟨"National Institute on Aging Fact Sheet", "https://www.nia.nih.gov/health/alzheimers-disease-fact-sheet"⟩,
    ⟨"Alzheimer's Association Safety Center", "https://www.alz.org/help-support/caregiving/daily-care/safety"⟩,
    ⟨"Caregiver Resources and Support", "https://www.alzheimers.gov/life-with-dementia/resources-caregivers"⟩,
    ⟨"Middle Stage Caregiving Guide", "https://www.alz.org/help-support/caregiving/stages-behaviors/middle-stage"⟩]),
  ("additional_info", .str "Consider residential care options if home care becomes unsafe or too challenging. Focus on comfort, dignity, and quality of life. Behavioral interventions may be more effective than medications."),
  ("reference", .str "https://www.alz.org/help-support/caregiving/stages-behaviors/middle-stage")]

/-- The `stage_info` dict (app.py lines 25–174), in source insertion order. -/
def stage_info : List (String × StageRecord) := [
  ("non_demented", nonDementedInfo),
  ("very_mild_dementia", veryMildDementiaInfo),
  ("mild_dementia", mildDementiaInfo),
  ("moderate_dementia", moderateDementiaInfo)]

/-- The ten field names every `stage_info` record is required to carry
(spec §3). -/
def requiredKeys : List String :=
  ["stage", "description", "symptoms", "progression", "risk_factors",
   "care_tips", "legal_considerations", "support_resources",
   "additional_info", "reference"]

/-- `info['k']` for a string-valued field (`""` when absent or of another
shape; the four source records store strings at every key this is used on). -/
def getStr (info : StageRecord) (k : String) : String :=
  match List.lookup k info with
  | some (.str s) => s
  | _ => ""

/-- `info.get('k')` for a string-list field; `[]` (falsy) when absent. -/
def getStrList (info : StageRecord) (k : String) : List String :=
  match List.lookup k info with
  | some (.strList l) => l
  | _ => []

/-- `info['k']` for a resource-list field; `[]` when absent. -/
def getResList (info : StageRecord) (k : String) : List Resource :=
  match List.lookup k info with
  | some (.resList l) => l
  | _ => []

example : (List.lookup "non_demented" stage_info).isSome = true := by decide
example : getStrList nonDementedInfo "symptoms" = [] := by decide
example : getStr mildDementiaInfo "stage" = "Mild Dementia (Middle Stage - Early)" := by decide

/-! ### Numeric routines: `np.argmax`, `np.max`, confidence, breakdown -/

/-- Scan of `np.argmax`: walk the remaining entries, keeping the index of the
best value seen so far and replacing it only on a strictly larger value, so
the first-occurring maximum wins. -/
def argmaxAux : List ℚ → Nat → Nat → ℚ → Nat
  | [], _, best, _ => best
  | x :: xs, i, best, bestVal =>
    if bestVal < x then argmaxAux xs (i + 1) i x
    else argmaxAux xs (i + 1) best bestVal

/-- `int(np.argmax(preds))` (app.py line 187): index of the first-occurring
maximum of the vector (numpy's documented tie-breaking); `0` on the empty
vector. -/
def np_argmax : List ℚ → Nat
  | [] => 0
  | x :: xs => argmaxAux xs 1 0 x

/-- `np.max(preds)` (app.py line 189): the maximum entry; `0` on the empty
vector (numpy raises there; the model output is never empty). -/
def np_max : List ℚ → ℚ
  | [] => 0
  | x :: xs => xs.foldl max x

/-- `confidence = 100 * np.max(preds)` (app.py line 189). -/
def confidence (preds : List ℚ) : ℚ := 100 * np_max preds

/-- `str.replace(a, b)` for a single-character pattern and replacement, the
only use in the program (`replace('_', ' ')`, app.py line 230). -/
def pyReplaceChar (s : String) (a b : Char) : String :=
  String.mk (s.data.map (fun c => if c = a then b else c))

/-- `str.title()` on one word: first character upper-cased, the rest
lower-cased. -/
def capWord : List Char → List Char
  | [] => []
  | c :: cs => c.toUpper :: cs.map Char.toLower

/-- Split a character list on spaces (adjacent separators give empty words,
as Python's `str.split(' ')` would). -/
def splitOnSpace : List Char → List (List Char)
  | [] => [[]]
  | c :: cs =>
    let r := splitOnSpace cs
    if c = ' ' then [] :: r
    else (c :: r.headD []) :: r.tail

/-- Join words with single spaces. -/
def joinSpace : List (List Char) → List Char
  | [] => []
  | [w] => w
  | w :: ws => w ++ ' ' :: joinSpace ws

/-- Python's `str.title()` as used on the space-separated label names
(app.py line 230). -/
def pyTitle (s : String) : String :=
  String.mk (joinSpace ((splitOnSpace s.data).map capWord))

/-- `labels[i].replace('_', ' ').title()` (app.py line 230): the display name
of class `i` in the confidence breakdown. -/
def displayName (i : Nat) : String :=
  pyTitle (pyReplaceChar ((labels i).getD "") '_' ' ')

/-- The confidence breakdown loop (app.py lines 229–230):
`for i, p in enumerate(preds[0])`, displaying class `i`'s name with `p*100`. -/
def breakdown (preds : List ℚ) : List (String × ℚ) :=
  preds.enum.map (fun ip => (displayName ip.1, ip.2 * 100))

example : np_argmax [1, 3, 3, 2] = 1 := by decide
example : np_argmax [5, 3, 3, 2] = 0 := by decide
example : np_max [1, 3, 3, 2] = 3 := by norm_num [np_max]
example : displayName 0 = "Mild Dementia" := by decide
example : displayName 3 = "Very Mild Dementia" := by decide

/-! ### Image preprocessing -/

/-- One RGB pixel of the decoded 8-bit image buffer. -/
abbrev Pixel := Nat × Nat × Nat

/-- A decoded RGB pixel buffer: a list of rows of pixels. -/
abbrev Img := List (List Pixel)

/-- `img_height, img_width = 128, 128` (app.py line 176). -/
def img_height : Nat := 128

def img_width : Nat := 128

/-- A 4-dimensional tensor of rationals (batch, row, column, channel). -/
abbrev Tensor := List (List (List (List ℚ)))

/-- Modelled from the spec: `image.resize((img_height, img_width))`
(app.py line 182) is a PIL library call, out of scope for the repository;
the spec's contract is a non-aspect-preserving stretch to 128×128, modelled
here as nearest-neighbour sampling of the source buffer (255-bounded output
pixels either come from the source or are the zero default). -/
def resizeImage (img : Img) (h w : Nat) : Img :=
  (List.range h).map (fun y =>
    (List.range w).map (fun x =>
      (img.getD (y * img.length / h) []).getD
        (x * (img.headD []).length / w) (0, 0, 0)))

/-- `img_to_array(img)` (app.py line 183): the H×W×3 array of the pixel
channel values, as exact rationals. -/
def img_to_array (img : Img) : List (List (List ℚ)) :=
  img.map (fun row => row.map (fun p => [(p.1 : ℚ), (p.2.1 : ℚ), (p.2.2 : ℚ)]))

/-- The preprocessing pipeline of app.py lines 182–184: resize to 128×128,
convert to an array, add a leading batch dimension and divide by 255. -/
def preprocess (image : Img) : Tensor :=
  ([img_to_array (resizeImage image img_height img_width)]).map (fun arr =>
    arr.map (fun row => row.map (fun px => px.map (fun v => v / 255))))

/-- The uploaded image decodes to an 8-bit buffer: every channel is ≤ 255. -/
def ValidImg (image : Img) : Prop :=
  ∀ row ∈ image, ∀ p ∈ row, p.1 ≤ 255 ∧ p.2.1 ≤ 255 ∧ p.2.2 ≤ 255

instance (image : Img) : Decidable (ValidImg image) := by
  unfold ValidImg; infer_instance

/-- The shape contract `(1, 128, 128, 3)` for the preprocessed tensor. -/
def TensorShape (t : Tensor) : Prop :=
  t.length = 1 ∧ ∀ b ∈ t, b.length = 128 ∧ ∀ row ∈ b, row.length = 128 ∧
    ∀ px ∈ row, px.length = 3

/-! ### The presenter: one `RenderItem` per displayed section or line -/

/-- One displayed element. Payloads are the data being displayed; the fixed
emergency-resources and general-information blocks (app.py lines 233–240)
carry no payload because their text is constant. -/
inductive RenderItem where
  | creditsLine
  | titleLine
  | captionLine
  | uploaderWidget
  | uploadedImage
  | stageHeader (text : String)
  | confidenceLine (c : ℚ)
  | descriptionLine (text : String)
  | progressionLine (text : String)
  | symptomsSection (items : List String)
  | riskFactorsSection (items : List String)
  | careTipsSection (items : List String)
  | legalLine (text : String)
  | additionalInfoLine (text : String)
  | supportResourcesSection (links : List Resource)
  | referenceLine (url : String)
  | separator
  | breakdownSection (entries : List (String × ℚ))
  | emergencySection
  | generalInfoSection
deriving DecidableEq

/-- The kind of a displayed element, forgetting its payload. -/
inductive RenderKind where
  | creditsLine
  | titleLine
  | captionLine
  | uploaderWidget
  | uploadedImage
  | stageHeader
  | confidenceLine
  | descriptionLine
  | progressionLine
  | symptomsSection
  | riskFactorsSection
  | careTipsSection
  | legalLine
  | additionalInfoLine
  | supportResourcesSection
  | referenceLine
  | separator
  | breakdownSection
  | emergencySection
  | generalInfoSection
deriving DecidableEq

/-- Forget a displayed element's payload. -/
def RenderItem.kind : RenderItem → RenderKind
  | .creditsLine => .creditsLine
  | .titleLine => .titleLine
  | .captionLine => .captionLine
  | .uploaderWidget => .uploaderWidget
  | .uploadedImage => .uploadedImage
  | .stageHeader _ => .stageHeader
  | .confidenceLine _ => .confidenceLine
  | .descriptionLine _ => .descriptionLine
  | .progressionLine _ => .progressionLine
  | .symptomsSection _ => .symptomsSection
  | .riskFactorsSection _ => .riskFactorsSection
  | .careTipsSection _ => .careTipsSection
  | .legalLine _ => .legalLine
  | .additionalInfoLine _ => .additionalInfoLine
  | .supportResourcesSection _ => .supportResourcesSection
  | .referenceLine _ => .referenceLine
  | .separator => .separator
  | .breakdownSection _ => .breakdownSection
  | .emergencySection => .emergencySection
  | .generalInfoSection => .generalInfoSection

/-- The presenter (app.py lines 192–240): the display calls made for a looked
up record `info`, a confidence value and the probability row `preds0`, in
source order. The conditionals mirror the source exactly: `"k" in info` is a
key-presence test, `info.get('k')` is a Python-truthiness test (a missing key
or an empty list are falsy). -/
def renderInfo (info : StageRecord) (conf : ℚ) (preds0 : List ℚ) :
    List RenderItem :=
  [.stageHeader (getStr info "stage"),
   .confidenceLine conf,
   .descriptionLine (getStr info "description")]
  ++ (if (List.lookup "progression" info).isSome then
        [.progressionLine (getStr info "progression")] else [])
  ++ (if getStrList info "symptoms" ≠ [] then
        [.symptomsSection (getStrList info "symptoms")] else [])
  ++ (if getStrList info "risk_factors" ≠ [] then
        [.riskFactorsSection (getStrList info "risk_factors")] else [])
  ++ (if getStrList info "care_tips" ≠ [] then
        [.careTipsSection (getStrList info "care_tips")] else [])
  ++ (if (List.lookup "legal_considerations" info).isSome then
        [.legalLine (getStr info "legal_considerations")] else [])
  ++ (if (List.lookup "additional_info" info).isSome then
        [.additionalInfoLine (getStr info "additional_info")] else [])
  ++ (if (List.lookup "support_resources" info).isSome then
        [.supportResourcesSection (getResList info "support_resources")] else [])
  ++ [.referenceLine (getStr info "reference"),
      .separator,
      .breakdownSection (breakdown preds0),
      .separator,
      .emergencySection,
      .generalInfoSection]

/-! ### The script flow -/

/-- An uploaded file. Modelled from the spec: `Image.open(...).convert("RGB")`
(app.py line 180) is an external library call that either yields a decoded
RGB pixel buffer or raises; `decoded` is that call's outcome for this file. -/
structure UploadedFile where
  decoded : Option Img

/-- An unhandled runtime fault of the upload-handling path: a decode failure
from the image library, or a `KeyError` from a dict lookup. -/
inductive AppError where
  | decodeFailure
  | keyError
deriving DecidableEq

/-- The body of the `if uploaded_file is not None:` block (app.py lines
180–240), for a classifier `predict` (the loaded model, an opaque function
from a tensor to its probability row `preds[0]`): decode, display the
uploaded image, preprocess, predict, select the class by `argmax`, look it up
in `labels` and `stage_info`, and render. Any failure aborts the block with
the corresponding error and renders nothing further. -/
def processUpload (predict : Tensor → List ℚ) (f : UploadedFile) :
    Except AppError (List RenderItem) :=
  match f.decoded with
  | none => .error .decodeFailure
  | some image =>
    let preds := predict (preprocess image)
    match labels (np_argmax preds) with
    | none => .error .keyError
    | some predClass =>
      match List.lookup predClass stage_info with
      | none => .error .keyError
      | some info =>
        .ok ([.uploadedImage] ++ renderInfo info (confidence preds) preds)

/-- One run of the script (app.py lines 8–240): the static credits, title,
caption and uploader widget are always displayed; the prediction and
rendering block runs only when a file has been uploaded. -/
def appRun (predict : Tensor → List ℚ) (uploaded : Option UploadedFile) :
    Except AppError (List RenderItem) :=
  let staticItems : List RenderItem :=
    [.creditsLine, .titleLine, .captionLine, .uploaderWidget]
  match uploaded with
  | none => .ok staticItems
  | some f => (processUpload predict f).map (fun items => staticItems ++ items)

/-- Modelled from the spec: the classifier artifact is opaque
("tensor-in, probability-vector-out"); its output is a probability vector
over 4 classes — four non-negative entries summing to 1. -/
def IsProbVec (preds : List ℚ) : Prop :=
  preds.length = 4 ∧ (∀ x ∈ preds, 0 ≤ x) ∧ preds.sum = 1

/-! ### Helper lemmas -/

lemma argmaxAux_lt (xs : List ℚ) : ∀ (i best : Nat) (bv : ℚ), best < i →
    argmaxAux xs i best bv < i + xs.length := by
  induction xs with
  | nil => intro i best bv h; simpa [argmaxAux] using h
  | cons x xs ih =>
    intro i best bv h
    simp only [argmaxAux, List.length_cons]
    split
    · have := ih (i + 1) i x (Nat.lt_succ_self i); omega
    · have := ih (i + 1) best bv (by omega); omega

/-- `np.argmax` returns an index of the vector. -/
lemma np_argmax_lt (l : List ℚ) (h : l ≠ []) : np_argmax l < l.length := by
  match l with
  | x :: xs =>
    have := argmaxAux_lt xs 1 0 x (by omega)
    simp only [np_argmax, List.length_cons]
    omega

lemma getD_mem_or_eq {α : Type} (l : List α) (i : Nat) (d : α) :
    l.getD i d ∈ l ∨ l.getD i d = d := by
  induction l generalizing i with
  | nil => right; rfl
  | cons x xs ih =>
    cases i with
    | zero => left; simp
    | succ n =>
      rw [List.getD_cons_succ]
      rcases ih n with h | h
      · exact .inl (List.mem_cons_of_mem x h)
      · exact .inr h

/-- Every pixel of the resized buffer is a source pixel or the zero default,
so it stays 8-bit bounded. -/
lemma resize_pixel_valid (image : Img) (hv : ValidImg image) (h w : Nat) :
    ∀ row ∈ resizeImage image h w, ∀ p ∈ row,
      p.1 ≤ 255 ∧ p.2.1 ≤ 255 ∧ p.2.2 ≤ 255 := by
  intro row hrow p hp
  simp only [resizeImage, List.mem_map, List.mem_range] at hrow
  obtain ⟨y, _, rfl⟩ := hrow
  simp only [List.mem_map, List.mem_range] at hp
  obtain ⟨x, _, rfl⟩ := hp
  rcases getD_mem_or_eq (image.getD (y * image.length / h) [])
      (x * (image.headD []).length / w) ((0, 0, 0) : Pixel) with hp' | hp'
  · rcases getD_mem_or_eq image (y * image.length / h) [] with hr | hr
    · exact hv _ hr _ hp'
    · rw [hr] at hp'; cases hp'
  · rw [hp']; exact ⟨Nat.zero_le _, Nat.zero_le _, Nat.zero_le _⟩

/-- The breakdown over an arbitrary 4-entry row, fully evaluated. -/
lemma breakdown_four (a b c d : ℚ) :
    breakdown [a, b, c, d] =
      [("Mild Dementia", a * 100), ("Moderate Dementia", b * 100),
       ("Non Demented", c * 100), ("Very Mild Dementia", d * 100)] := by
  have h0 : displayName 0 = "Mild Dementia" := by decide
  have h1 : displayName 1 = "Moderate Dementia" := by decide
  have h2 : displayName 2 = "Non Demented" := by decide
  have h3 : displayName 3 = "Very Mild Dementia" := by decide
  simp [breakdown, List.enum, List.enumFrom, h0, h1, h2, h3]

set_option maxHeartbeats 1000000 in
/-- The kind sequence of the rendered output does not depend on the numeric
payloads. -/
lemma renderInfo_kinds_const (info : StageRecord) (conf : ℚ) (preds0 : List ℚ) :
    (renderInfo info conf preds0).map RenderItem.kind =
      (renderInfo info 0 []).map RenderItem.kind := by
  unfold renderInfo
  split_ifs <;> rfl

/-! ### The claims -/

/-- C1: every class index 0–3 maps under `labels` to a key of `stage_info`,
and `argmax` over a 4-element probability vector produces an index 0–3, so
the lookup `stage_info[labels[pred_index]]` always succeeds (the `KeyError`
branches are unreachable). -/
theorem labels_stage_info_lookup_total (i : Nat) (preds : List ℚ)
    (hi : i < 4) (hlen : preds.length = 4) :
    (∃ name info, labels i = some name ∧
      List.lookup name stage_info = some info) ∧
    np_argmax preds < 4 ∧
    ∃ name info, labels (np_argmax preds) = some name ∧
      List.lookup name stage_info = some info := by
  have hbound : np_argmax preds < 4 := by
    have := np_argmax_lt preds (by intro hnil; rw [hnil] at hlen; simp at hlen)
    omega
  refine ⟨?_, hbound, ?_⟩
  · interval_cases i
    · exact ⟨_, _, rfl, rfl⟩
    · exact ⟨_, _, rfl, rfl⟩
    · exact ⟨_, _, rfl, rfl⟩
    · exact ⟨_, _, rfl, rfl⟩
  · rcases (by omega : np_argmax preds = 0 ∨ np_argmax preds = 1 ∨
        np_argmax preds = 2 ∨ np_argmax preds = 3) with h | h | h | h <;>
      rw [h]
    · exact ⟨_, _, rfl, rfl⟩
    · exact ⟨_, _, rfl, rfl⟩
    · exact ⟨_, _, rfl, rfl⟩
    · exact ⟨_, _, rfl, rfl⟩

theorem labels_stage_info_lookup_total_witness :
    (0 : Nat) < 4 ∧ ([1, 0, 0, 0] : List ℚ).length = 4 ∧
    ((∃ name info, labels 0 = some name ∧
        List.lookup name stage_info = some info) ∧
      np_argmax [1, 0, 0, 0] < 4 ∧
      ∃ name info, labels (np_argmax [1, 0, 0, 0]) = some name ∧
        List.lookup name stage_info = some info) :=
  ⟨by decide, by decide,
    labels_stage_info_lookup_total 0 [1, 0, 0, 0] (by decide) (by decide)⟩

/-- C5: the confidence breakdown always lists exactly the 4 classes in
label-map index order 0,1,2,3 — mild_dementia, moderate_dementia,
non_demented, very_mild_dementia — each with its probability times 100,
independently of which class was predicted. -/
theorem breakdown_lists_classes_in_label_order (a b c d : ℚ) :
    labels 0 = some "mild_dementia" ∧ labels 1 = some "moderate_dementia" ∧
    labels 2 = some "non_demented" ∧ labels 3 = some "very_mild_dementia" ∧
    breakdown [a, b, c, d] =
      [("Mild Dementia", a * 100), ("Moderate Dementia", b * 100),
       ("Non Demented", c * 100), ("Very Mild Dementia", d * 100)] :=
  ⟨rfl, rfl, rfl, rfl, breakdown_four a b c d⟩

/-- C6: for each of the 4 known labels, the `stage_info` lookup succeeds and
the record carries all ten required fields (and the `symptoms` field of the
`non_demented` record is the empty sequence). -/
theorem stage_info_records_complete (i : Nat) (hi : i < 4) :
    ∃ name info, labels i = some name ∧
      List.lookup name stage_info = some info ∧
      (∀ k ∈ requiredKeys, (List.lookup k info).isSome) ∧
      (name = "non_demented" →
        List.lookup "symptoms" info = some (.strList [])) := by
  interval_cases i
  · exact ⟨_, _, rfl, rfl, by decide, by decide⟩
  · exact ⟨_, _, rfl, rfl, by decide, by decide⟩
  · exact ⟨_, _, rfl, rfl, by decide, by decide⟩
  · exact ⟨_, _, rfl, rfl, by decide, by decide⟩

theorem stage_info_records_complete_witness :
    (2 : Nat) < 4 ∧
    ∃ name info, labels 2 = some name ∧
      List.lookup name stage_info = some info ∧
      (∀ k ∈ requiredKeys, (List.lookup k info).isSome) ∧
      (name = "non_demented" →
        List.lookup "symptoms" info = some (.strList [])) :=
  ⟨by decide, stage_info_records_complete 2 (by decide)⟩

/-- C8: if decoding the uploaded file fails, the error propagates unhandled:
the run of the upload block ends in the decode error, computing no prediction
and rendering no stage record, whatever the classifier would have said. -/
theorem decode_failure_propagates (predict : Tensor → List ℚ)
    (f : UploadedFile) (h : f.decoded = none) :
    appRun predict (some f) = .error .decodeFailure := by
  simp [appRun, processUpload, h, Except.map]

theorem decode_failure_propagates_witness :
    (UploadedFile.mk none).decoded = none ∧
    appRun (fun _ => [1, 0, 0, 0]) (some (UploadedFile.mk none)) =
      .error .decodeFailure :=
  ⟨rfl, decode_failure_propagates _ _ rfl⟩

/-- C10: when no file has been uploaded, only the static credits, title,
caption and uploader widget are displayed; the result does not depend on the
classifier, which is therefore never consulted, and no prediction output
appears. -/
theorem no_upload_renders_static_only (p₁ p₂ : Tensor → List ℚ) :
    appRun p₁ none =
      .ok [.creditsLine, .titleLine, .captionLine, .uploaderWidget] ∧
    appRun p₁ none = appRun p₂ none :=
  ⟨rfl, rfl⟩

/-- C9: when the classifier output is a probability vector over the 4 classes
(the spec's contract for the opaque model artifact), the entries reported in
the confidence breakdown are its entries times 100, and they sum to exactly
100 percent — so the underlying reported probabilities sum to 1. -/
theorem breakdown_probabilities_sum_to_one (preds : List ℚ)
    (h : IsProbVec preds) :
    ((breakdown preds).map Prod.snd).sum = 100 := by
  obtain ⟨-, -, hsum⟩ := h
  have hmap : (breakdown preds).map Prod.snd =
      preds.map (fun p => p * 100) := by
    unfold breakdown
    rw [List.map_map]
    show preds.enum.map ((fun p => p * 100) ∘ Prod.snd) = _
    rw [← List.map_map, List.enum_map_snd]
  rw [hmap]
  have := List.sum_map_mul_right preds (fun p => p) 100
  simpa [hsum] using this

theorem breakdown_probabilities_sum_to_one_witness :
    IsProbVec [1, 0, 0, 0] ∧
    ((breakdown [(1 : ℚ), 0, 0, 0]).map Prod.snd).sum = 100 :=
  ⟨⟨by decide, by decide, by simp⟩,
   breakdown_probabilities_sum_to_one [1, 0, 0, 0]
     ⟨by decide, by decide, by simp⟩⟩

/-- C2: for every successfully decoded image with 8-bit pixel values, the
preprocessor produces a tensor of shape `(1, 128, 128, 3)` whose every
element lies in `[0, 1]`. -/
theorem preprocess_shape_and_range (image : Img) (hv : ValidImg image) :
    TensorShape (preprocess image) ∧
    ∀ b ∈ preprocess image, ∀ row ∈ b, ∀ px ∈ row, ∀ v ∈ px,
      0 ≤ v ∧ v ≤ 1 := by
  have hpix := resize_pixel_valid image hv img_height img_width
  constructor
  · refine ⟨rfl, ?_⟩
    intro b hb
    simp only [preprocess, List.map_cons, List.map_nil, List.mem_singleton] at hb
    subst hb
    refine ⟨by simp [img_to_array, resizeImage, img_height], ?_⟩
    intro row hrow
    simp only [img_to_array, resizeImage, List.map_map, List.mem_map,
      List.mem_range] at hrow
    obtain ⟨y, hy, rfl⟩ := hrow
    refine ⟨by simp [img_width], ?_⟩
    intro px hpx
    simp only [List.map_map, List.mem_map, List.mem_range, Function.comp] at hpx
    obtain ⟨x, hx, rfl⟩ := hpx
    simp
  · intro b hb row hrow px hpx v hvv
    simp only [preprocess, List.map_cons, List.map_nil, List.mem_singleton] at hb
    subst hb
    simp only [img_to_array, List.map_map, List.mem_map, Function.comp] at hrow
    obtain ⟨r, hr, rfl⟩ := hrow
    simp only [List.map_map, List.mem_map, Function.comp] at hpx
    obtain ⟨p, hp, rfl⟩ := hpx
    simp only [List.map_cons, List.map_nil, List.mem_cons, List.not_mem_nil,
      or_false] at hvv
    have hbd := hpix r hr p hp
    rcases hvv with h | h | h <;> subst h
    · exact ⟨by positivity, by rw [div_le_one (by norm_num)]; exact_mod_cast hbd.1⟩
    · exact ⟨by positivity, by rw [div_le_one (by norm_num)]; exact_mod_cast hbd.2.1⟩
    · exact ⟨by positivity, by rw [div_le_one (by norm_num)]; exact_mod_cast hbd.2.2⟩

theorem preprocess_shape_and_range_witness :
    ValidImg [[(10, 20, 30)]] ∧
    (TensorShape (preprocess [[(10, 20, 30)]]) ∧
      ∀ b ∈ preprocess [[(10, 20, 30)]], ∀ row ∈ b, ∀ px ∈ row, ∀ v ∈ px,
        0 ≤ v ∧ v ≤ 1) :=
  ⟨by decide, preprocess_shape_and_range [[(10, 20, 30)]] (by decide)⟩

/-- C3: on a 4-entry probability vector, `pred_index = int(np.argmax(preds))`
is the least index `j` with `preds[j] ≥ preds[k]` for all `k < 4`
(first-occurring maximum). -/
theorem argmax_is_least_maximizer (a b c d : ℚ) :
    IsLeast {j | j < 4 ∧ ∀ k < 4,
        [a, b, c, d].getD k 0 ≤ [a, b, c, d].getD j 0}
      (np_argmax [a, b, c, d]) := by
  simp only [IsLeast, lowerBounds, Set.mem_setOf_eq, np_argmax, argmaxAux]
  split_ifs <;>
    refine ⟨⟨by norm_num,
      by intro k hk; interval_cases k <;> simp [List.getD] <;> linarith⟩, ?_⟩ <;>
    (rintro j ⟨hj4, hall⟩
     by_contra hcon
     push_neg at hcon
     interval_cases j <;>
       · have h0 := hall 0 (by norm_num)
         have h1 := hall 1 (by norm_num)
         have h2 := hall 2 (by norm_num)
         have h3 := hall 3 (by norm_num)
         simp [List.getD] at h0 h1 h2 h3
         linarith)

/-- `np.max` of a 4-entry vector is the entry at its `np.argmax` index. -/
lemma np_max_eq_argmax_entry (a b c d : ℚ) :
    np_max [a, b, c, d] = [a, b, c, d].getD (np_argmax [a, b, c, d]) 0 := by
  simp only [np_max, np_argmax, argmaxAux, List.foldl]
  split_ifs <;> simp only [List.getD_cons_zero, List.getD_cons_succ] <;>
    (simp only [max_def]; split_ifs <;> linarith)

/-- C4: the reported confidence `100 * np.max(preds)` equals 100 times the
entry at the argmax index, and coincides with the percentage the breakdown
shows for the predicted class. -/
theorem confidence_matches_breakdown_entry (a b c d : ℚ) :
    confidence [a, b, c, d] =
      100 * [a, b, c, d].getD (np_argmax [a, b, c, d]) 0 ∧
    ((breakdown [a, b, c, d]).getD (np_argmax [a, b, c, d]) ("", 0)).2 =
      confidence [a, b, c, d] := by
  have h1 : confidence [a, b, c, d] =
      100 * [a, b, c, d].getD (np_argmax [a, b, c, d]) 0 := by
    rw [confidence, np_max_eq_argmax_entry]
  refine ⟨h1, ?_⟩
  rw [h1, breakdown_four]
  simp only [np_argmax, argmaxAux]
  split_ifs <;>
    simp only [List.getD_cons_zero, List.getD_cons_succ] <;> ring

set_option maxHeartbeats 1000000 in
/-- C7: for every record that reaches the presenter, the output is rendered
in the fixed source order — stage header, confidence, description,
progression, symptoms (appearing iff the record's symptoms list is
non-empty), risk factors, care tips, legal considerations, additional info,
support-resource links, the primary reference link, the 4-class confidence
breakdown and the fixed emergency block (followed by the general-information
note), independently of the confidence value and probability row. -/
theorem render_order_is_fixed (i : Nat) (hi : i < 4) (conf : ℚ)
    (preds0 : List ℚ) :
    ∃ name info, labels i = some name ∧
      List.lookup name stage_info = some info ∧
      (renderInfo info conf preds0).map RenderItem.kind =
        [.stageHeader, .confidenceLine, .descriptionLine, .progressionLine]
        ++ (if getStrList info "symptoms" ≠ [] then [.symptomsSection] else [])
        ++ [.riskFactorsSection, .careTipsSection, .legalLine,
            .additionalInfoLine, .supportResourcesSection, .referenceLine,
            .separator, .breakdownSection, .separator, .emergencySection,
            .generalInfoSection] := by
  interval_cases i
  · exact ⟨_, _, rfl, rfl, by rw [renderInfo_kinds_const]; decide⟩
  · exact ⟨_, _, rfl, rfl, by rw [renderInfo_kinds_const]; decide⟩
  · exact ⟨_, _, rfl, rfl, by rw [renderInfo_kinds_const]; decide⟩
  · exact ⟨_, _, rfl, rfl, by rw [renderInfo_kinds_const]; decide⟩

theorem render_order_is_fixed_witness :
    (2 : Nat) < 4 ∧
    ∃ name info, labels 2 = some name ∧
      List.lookup name stage_info = some info ∧
      (renderInfo info 50 [1, 0, 0, 0]).map RenderItem.kind =
        [.stageHeader, .confidenceLine, .descriptionLine, .progressionLine]
        ++ (if getStrList info "symptoms" ≠ [] then [.symptomsSection] else [])
        ++ [.riskFactorsSection, .careTipsSection, .legalLine,
            .additionalInfoLine, .supportResourcesSection, .referenceLine,
            .separator, .breakdownSection, .separator, .emergencySection,
            .generalInfoSection] :=
  ⟨by decide, render_order_is_fixed 2 (by decide) 50 [1, 0, 0, 0]⟩
